import Mathlib

/-!
# Verification of the patrimoine inspection-modification workflow

A shallow embedding of the role-authorization, audit-log and
inspection-modification-request subsystem of the `patrimoine` Django
application (`patrimoine/views.py`, `core/views.py`,
`patrimoine/models.py`), together with proofs of the specified
properties.

Modelling conventions:
* Django model rows become Lean structures; the database tables become
  lists of rows carried in an explicit state record.
* `timezone.now()` / SQL `NOW()` become an explicit natural-number clock
  `now` carried in the state.
* Python values that can appear inside an audit snapshot are modelled by
  the inductive `Value`; Python `float` is modelled by an exact rational
  (`Rat`), which carries the numeric value of `float(Decimal)` without
  modelling rounding.
* `DateField` contents are modelled by their ISO-8601 string form: the
  proposed-data payload stores the date as an ISO string and the raw SQL
  `UPDATE` writes that string back into the date column, so the string is
  the observable value throughout (the DB date parse is external).
* A Django redirect / render / 404 outcome becomes a constructor of an
  outcome type; view functions return the new state paired with the
  outcome.
-/

namespace Patrimoine

/-- A Python value that can occur inside an `old_data`/`new_data` audit
snapshot: `None`, bool, int, float (exact rational stand-in), str,
`datetime.date`, `datetime.datetime`, or `decimal.Decimal`
(exact rational stand-in). -/
inductive Value where
  | vNone : Value
  | vBool : Bool → Value
  | vInt : Int → Value
  | vFloat : Rat → Value
  | vStr : String → Value
  | vDate : Nat → Nat → Nat → Value
  | vDatetime : Nat → Nat → Nat → Nat → Nat → Nat → Value
  | vDecimal : Rat → Value
deriving DecidableEq

/-- Zero-pad a natural number to two digits, as in Python ISO formatting. -/
def pad2 (n : Nat) : String :=
  if n < 10 then "0" ++ toString n else toString n

/-- Zero-pad a year to four digits. -/
def pad4 (n : Nat) : String :=
  if n < 10 then "000" ++ toString n
  else if n < 100 then "00" ++ toString n
  else if n < 1000 then "0" ++ toString n
  else toString n

/-- `datetime.date.isoformat()`: `YYYY-MM-DD`. -/
def dateIso (y m d : Nat) : String :=
  pad4 y ++ "-" ++ pad2 m ++ "-" ++ pad2 d

/-- `datetime.datetime.isoformat()`: `YYYY-MM-DDTHH:MM:SS`. -/
def datetimeIso (y mo d h mi s : Nat) : String :=
  dateIso y mo d ++ "T" ++ pad2 h ++ ":" ++ pad2 mi ++ ":" ++ pad2 s

/-- The per-value branch of `_normalize_audit_data` in
`patrimoine/views.py`: dates and datetimes go to their `isoformat()`
string, decimals go through `float(...)`, everything else is unchanged. -/
def normalizeValue : Value → Value
  | Value.vDate y m d => Value.vStr (dateIso y m d)
  | Value.vDatetime y mo d h mi s => Value.vStr (datetimeIso y mo d h mi s)
  | Value.vDecimal q => Value.vFloat q
  | v => v

/-- An `old_data`/`new_data` mapping: a Python dict, modelled as an
association list (submission order; keys are unique at every call site). -/
abbrev AuditData := List (String × Value)

/-- `_normalize_audit_data(data)` from `patrimoine/views.py`:
`if not data: return None` (both for `None` and for an empty dict),
otherwise normalize every value. -/
def _normalize_audit_data : Option AuditData → Option AuditData
  | none => none
  | some data =>
      if data.isEmpty then none
      else some (data.map (fun p => (p.1, normalizeValue p.2)))

/-- One row of the `AuditLog` table.

Modelled from the spec: the `AuditLog` model class itself is not under
`src/` (only its callers in `patrimoine/views.py` are); per spec §3 an
entry carries actor, action, entity_type, entity_id, optional
old_data/new_data snapshots and a creation timestamp, and is never
mutated or deleted after creation. Field names follow the
`AuditLog.objects.create(...)` call sites. -/
structure AuditLogEntry where
  actor : Nat
  action : String
  entity_type : String
  entity_id : Nat
  old_data : Option AuditData
  new_data : Option AuditData
  created_at : Nat
deriving DecidableEq

/-- `_log_audit(actor, action, entity_type, entity_id, old_data, new_data)`
from `patrimoine/views.py`: append one `AuditLog` row with normalized
snapshots and `created_at = timezone.now()`. -/
def _log_audit (audit : List AuditLogEntry) (actor : Nat) (action : String)
    (entity_type : String) (entity_id : Nat)
    (old_data new_data : Option AuditData) (now : Nat) : List AuditLogEntry :=
  audit ++ [{ actor := actor, action := action, entity_type := entity_type,
              entity_id := entity_id,
              old_data := _normalize_audit_data old_data,
              new_data := _normalize_audit_data new_data,
              created_at := now }]

/-- A Django `auth.User`: primary key, the `is_superuser` flag, and the
names of the groups the user belongs to. -/
structure User where
  userId : Nat
  is_superuser : Bool
  groups : List String
deriving DecidableEq

/-- `_user_role(user)` from `core/views.py`: superuser flag first, then
ADMIN group, then INSPECTEUR group, else public. -/
def _user_role (u : User) : String :=
  if u.is_superuser then "superadmin"
  else if u.groups.contains "ADMIN" then "admin"
  else if u.groups.contains "INSPECTEUR" then "inspecteur"
  else "public"

/-- `dashboard_router_view` from `core/views.py`: redirect to the
dashboard matching `_user_role`, checked in the order
superadmin, admin, inspecteur, public. The result is the redirect
target's route name. -/
def dashboard_router_view (u : User) : String :=
  let role := _user_role u
  if role = "superadmin" then "dashboard-superadmin"
  else if role = "admin" then "dashboard-admin"
  else if role = "inspecteur" then "dashboard-inspecteur"
  else "dashboard-public"

/-- Spec-side routing table (§4.1: "this ordering must be preserved
exactly, including in dashboard routing"): the dashboard route each
resolved role should reach. Written from the spec's words, to be
compared with `dashboard_router_view`. -/
def spec_dashboard_route_for (role : String) : String :=
  if role = "superadmin" then "dashboard-superadmin"
  else if role = "admin" then "dashboard-admin"
  else if role = "inspecteur" then "dashboard-inspecteur"
  else "dashboard-public"

/-- `_is_admin(user)` from `patrimoine/views.py`: superuser or member of
the ADMIN group; gates approve/reject of modification requests. -/
def _is_admin (u : User) : Bool :=
  u.is_superuser || u.groups.contains "ADMIN"

/-- `_can_edit(user)` from `patrimoine/views.py`. -/
def _can_edit (u : User) : Bool :=
  u.is_superuser || u.groups.contains "ADMIN"

/-- One row of the `inspection` table (`patrimoine/models.py`,
class `Inspection`). `date_inspection` is carried in its ISO string
form (see the header comment). -/
structure Inspection where
  id_inspection : Nat
  id_patrimoine : Nat
  id_inspecteur : Nat
  date_inspection : String
  etat : String
  observations : String
  archived_at : Option Nat
  created_at : Nat
  updated_at : Nat
deriving DecidableEq

/-- The `proposed_data` JSON payload built by `inspection_request_edit`:
replacement values for the three editable inspection fields (all three
keys are always present at creation). -/
structure ProposedData where
  date_inspection : String
  etat : String
  observations : String
deriving DecidableEq

/-- The `status` column of `inspection_modification_request`
(`REQUEST_STATUS` choices in `patrimoine/models.py`). -/
inductive RequestStatus where
  | PENDING
  | APPROVED
  | REJECTED
deriving DecidableEq

/-- One row of the `inspection_modification_request` table
(`patrimoine/models.py`, class `InspectionModificationRequest`). -/
structure InspectionModificationRequest where
  id_request : Nat
  id_inspection : Nat
  requested_by : Nat
  requested_at : Nat
  status : RequestStatus
  reviewed_by : Option Nat
  reviewed_at : Option Nat
  admin_note : Option String
  proposed_data : ProposedData
deriving DecidableEq

/-- The mutable store the workflow views operate over: the relevant
tables plus the clock and the next auto-increment request id. -/
structure WorkflowState where
  inspections : List Inspection
  requests : List InspectionModificationRequest
  audit : List AuditLogEntry
  next_request_id : Nat
  now : Nat
deriving DecidableEq

/-- The observable outcome of one workflow view call. -/
inductive ViewOutcome where
  | redirectInspectionDetail : Nat → ViewOutcome
  | redirectInspectionList : ViewOutcome
  | renderEditRequestForm : Nat → ViewOutcome
  | http404 : ViewOutcome
deriving DecidableEq

/-- `inspection.modification_requests.filter(status="PENDING")` row
predicate: a request targeting inspection `i` that is still PENDING. -/
def isPendingFor (i : Nat) (r : InspectionModificationRequest) : Bool :=
  r.id_inspection == i && r.status == RequestStatus.PENDING

/-- The row written by
`InspectionModificationRequest.objects.create(id_inspection=inspection,
requested_by=request.user, proposed_data=proposed_data)`: fresh
auto-increment id, `requested_at = now`, model defaults status PENDING
and null review columns. -/
def newRequestRow (st : WorkflowState) (user : User)
    (inspection : Inspection) (postData : ProposedData) :
    InspectionModificationRequest :=
  { id_request := st.next_request_id
    id_inspection := inspection.id_inspection
    requested_by := user.userId
    requested_at := st.now
    status := RequestStatus.PENDING
    reviewed_by := none
    reviewed_at := none
    admin_note := none
    proposed_data := postData }

/-- `inspection_request_edit(request, id_inspection)` from
`patrimoine/views.py` (Submit). Looks up the inspection (404 if
missing), refuses a caller who is not the owning inspector, refuses when
a PENDING request already exists for the inspection (both refusals
redirect to the inspection's detail view and change nothing), then on
POST creates a new PENDING request holding the proposed data and
redirects; on GET renders the form. No audit entry is written. -/
def inspection_request_edit (st : WorkflowState) (user : User)
    (id_inspection : Nat) (isPost : Bool) (postData : ProposedData) :
    WorkflowState × ViewOutcome :=
  match st.inspections.find? (fun i => i.id_inspection == id_inspection) with
  | none => (st, ViewOutcome.http404)
  | some inspection =>
      if inspection.id_inspecteur ≠ user.userId then
        (st, ViewOutcome.redirectInspectionDetail id_inspection)
      else if st.requests.any (isPendingFor inspection.id_inspection) then
        (st, ViewOutcome.redirectInspectionDetail id_inspection)
      else if isPost then
        ({ st with requests := st.requests ++ [newRequestRow st user inspection postData],
                   next_request_id := st.next_request_id + 1 },
         ViewOutcome.redirectInspectionDetail id_inspection)
      else
        (st, ViewOutcome.renderEditRequestForm id_inspection)

/-- The raw SQL `UPDATE inspection SET date_inspection = %s, etat = %s,
observations = %s, updated_at = NOW() WHERE id_inspection = %s` applied
to one row. -/
def applyProposed (insp : Inspection) (pd : ProposedData) (now : Nat) :
    Inspection :=
  { insp with date_inspection := pd.date_inspection, etat := pd.etat,
              observations := pd.observations, updated_at := now }

/-- The reviewed request row written by approve/reject:
status, `reviewed_by`, `reviewed_at = timezone.now()` and `admin_note`
are set, all other columns kept. -/
def reviewRequest (r : InspectionModificationRequest) (s : RequestStatus)
    (reviewer : Nat) (now : Nat) (note : String) :
    InspectionModificationRequest :=
  { r with status := s, reviewed_by := some reviewer,
           reviewed_at := some now, admin_note := some note }

/-- `inspection_request_approve(request, id_request)` from
`patrimoine/views.py`. Guards: `_is_admin` (else redirect to the
inspection list), request lookup (404 if missing), `status == "PENDING"`
(else redirect to the inspection list). Then, in order: raw SQL update of
the inspection with the proposed values, save of the reviewed request,
and two audit entries (`REQUEST_APPROVE` for the request, `UPDATE` for
the inspection with before/after snapshots). The FK dereference
`mod_request.id_inspection` sits inside the `try`; a missing row is the
caught-exception branch (redirect to the list). -/
def inspection_request_approve (st : WorkflowState) (user : User)
    (id_request : Nat) (admin_note : String) :
    WorkflowState × ViewOutcome :=
  if !(_is_admin user) then (st, ViewOutcome.redirectInspectionList)
  else
    match st.requests.find? (fun r => r.id_request == id_request) with
    | none => (st, ViewOutcome.http404)
    | some mod_request =>
        if mod_request.status ≠ RequestStatus.PENDING then
          (st, ViewOutcome.redirectInspectionList)
        else
          match st.inspections.find?
              (fun i => i.id_inspection == mod_request.id_inspection) with
          | none => (st, ViewOutcome.redirectInspectionList)
          | some inspection =>
              let old_data : AuditData :=
                [("date_inspection", Value.vStr inspection.date_inspection),
                 ("etat", Value.vStr inspection.etat),
                 ("observations", Value.vStr inspection.observations)]
              let proposed := mod_request.proposed_data
              let inspections' := st.inspections.map (fun i =>
                if i.id_inspection == inspection.id_inspection then
                  applyProposed i proposed st.now
                else i)
              let mod_request' :=
                reviewRequest mod_request RequestStatus.APPROVED
                  user.userId st.now admin_note
              let requests' := st.requests.map (fun r =>
                if r.id_request == id_request then mod_request' else r)
              let audit1 :=
                _log_audit st.audit user.userId "REQUEST_APPROVE"
                  "INSPECTION_REQUEST" mod_request.id_request none
                  (some [("status", Value.vStr "APPROVED"),
                         ("admin_note", Value.vStr admin_note)]) st.now
              let audit2 :=
                _log_audit audit1 user.userId "UPDATE" "INSPECTION"
                  inspection.id_inspection (some old_data)
                  (some [("date_inspection", Value.vStr proposed.date_inspection),
                         ("etat", Value.vStr proposed.etat),
                         ("observations", Value.vStr proposed.observations)]) st.now
              ({ st with inspections := inspections', requests := requests',
                         audit := audit2 },
               ViewOutcome.redirectInspectionDetail inspection.id_inspection)

/-- `inspection_request_reject(request, id_request)` from
`patrimoine/views.py`. Same guards as approve; on success the request is
marked REJECTED with reviewer/timestamp/note, one `REQUEST_REJECT` audit
entry is written, the inspection rows are untouched, and the caller is
redirected to the inspection's detail view. -/
def inspection_request_reject (st : WorkflowState) (user : User)
    (id_request : Nat) (admin_note : String) :
    WorkflowState × ViewOutcome :=
  if !(_is_admin user) then (st, ViewOutcome.redirectInspectionList)
  else
    match st.requests.find? (fun r => r.id_request == id_request) with
    | none => (st, ViewOutcome.http404)
    | some mod_request =>
        if mod_request.status ≠ RequestStatus.PENDING then
          (st, ViewOutcome.redirectInspectionList)
        else
          let mod_request' :=
            reviewRequest mod_request RequestStatus.REJECTED
              user.userId st.now admin_note
          ({ st with
               requests := st.requests.map (fun r =>
                 if r.id_request == id_request then mod_request' else r),
               audit := _log_audit st.audit user.userId "REQUEST_REJECT"
                 "INSPECTION_REQUEST" mod_request.id_request none
                 (some [("status", Value.vStr "REJECTED"),
                        ("admin_note", Value.vStr admin_note)]) st.now },
           ViewOutcome.redirectInspectionDetail mod_request.id_inspection)

/-- A point inside the `try` block of `inspection_request_approve` at
which a runtime failure (constraint violation, lost connection, ...) can
be raised: at the `mod_request.save()`, at the first `_log_audit` call,
or at the second one. -/
inductive ApproveFailPoint where
  | atRequestSave
  | atFirstAudit
  | atSecondAudit
deriving DecidableEq

/-- `inspection_request_approve` with a failure injected at the given
point. The view body has no transaction wrapper (no
`transaction.atomic` anywhere in the source and `ATOMIC_REQUESTS` is not
set), so under Django's default autocommit every statement that completed
before the failure has already been committed; the `except` handler at
the end of the view only redirects to the inspection list and undoes
nothing. Guards and the statements before the failure point are exactly
those of `inspection_request_approve`. -/
def inspection_request_approve_with_failure (st : WorkflowState)
    (user : User) (id_request : Nat) (admin_note : String)
    (fp : ApproveFailPoint) : WorkflowState × ViewOutcome :=
  if !(_is_admin user) then (st, ViewOutcome.redirectInspectionList)
  else
    match st.requests.find? (fun r => r.id_request == id_request) with
    | none => (st, ViewOutcome.http404)
    | some mod_request =>
        if mod_request.status ≠ RequestStatus.PENDING then
          (st, ViewOutcome.redirectInspectionList)
        else
          match st.inspections.find?
              (fun i => i.id_inspection == mod_request.id_inspection) with
          | none => (st, ViewOutcome.redirectInspectionList)
          | some inspection =>
              let proposed := mod_request.proposed_data
              let inspections' := st.inspections.map (fun i =>
                if i.id_inspection == inspection.id_inspection then
                  applyProposed i proposed st.now
                else i)
              match fp with
              | ApproveFailPoint.atRequestSave =>
                  ({ st with inspections := inspections' },
                   ViewOutcome.redirectInspectionList)
              | ApproveFailPoint.atFirstAudit =>
                  let mod_request' :=
                    reviewRequest mod_request RequestStatus.APPROVED
                      user.userId st.now admin_note
                  ({ st with inspections := inspections',
                             requests := st.requests.map (fun r =>
                               if r.id_request == id_request then mod_request'
                               else r) },
                   ViewOutcome.redirectInspectionList)
              | ApproveFailPoint.atSecondAudit =>
                  let mod_request' :=
                    reviewRequest mod_request RequestStatus.APPROVED
                      user.userId st.now admin_note
                  ({ st with inspections := inspections',
                             requests := st.requests.map (fun r =>
                               if r.id_request == id_request then mod_request'
                               else r),
                             audit := _log_audit st.audit user.userId
                               "REQUEST_APPROVE" "INSPECTION_REQUEST"
                               mod_request.id_request none
                               (some [("status", Value.vStr "APPROVED"),
                                      ("admin_note", Value.vStr admin_note)])
                               st.now },
                   ViewOutcome.redirectInspectionList)

/-- One row of the `document` table (`patrimoine/models.py`, class
`Document`); `file_size_mb` is a `Decimal` column (exact rational
stand-in), the three entity references are nullable. -/
structure Document where
  id_document : Nat
  type_document : String
  file_name : String
  file_size_mb : Rat
  uploaded_by : Nat
  id_patrimoine : Option Nat
  id_inspection : Option Nat
  id_intervention : Option Nat
deriving DecidableEq

/-- The store `document_delete` operates over. -/
structure DocState where
  documents : List Document
  audit : List AuditLogEntry
  now : Nat
deriving DecidableEq

/-- The observable outcome of a `document_delete` call.
`attributeError` is an uncaught Python `AttributeError` (`NoneType`
attribute access), surfaced by Django as a hard 500 error. -/
inductive DeleteOutcome where
  | redirectPatrimoineDetail : Nat → DeleteOutcome
  | redirectDocumentList : DeleteOutcome
  | http404 : DeleteOutcome
  | attributeError : DeleteOutcome
deriving DecidableEq

/-- `document.id_patrimoine.id_patrimoine if document.id_patrimoine else
None` (and likewise for the other nullable references). -/
def optRefValue : Option Nat → Value
  | none => Value.vNone
  | some n => Value.vInt (Int.ofNat n)

/-- `document_delete(request, id_document)` from `patrimoine/views.py`.
Looks up the document (404 if missing), builds the `old_data` snapshot,
then checks authorization (superuser, ADMIN group, or uploader). The
unauthorized branch executes
`redirect("patrimoine-detail", id_patrimoine=document.id_patrimoine.id_patrimoine)`
with no `None` guard, so for a document with no patrimoine it raises
`AttributeError`. The authorized branch deletes the row, writes one
DELETE audit entry, and redirects (detail view if the document had a
patrimoine, else the document list). The physical-file removal is
external storage and is not modelled. -/
def document_delete (st : DocState) (user : User) (id_document : Nat) :
    DocState × DeleteOutcome :=
  match st.documents.find? (fun d => d.id_document == id_document) with
  | none => (st, DeleteOutcome.http404)
  | some document =>
      let old_data : AuditData :=
        [("type_document", Value.vStr document.type_document),
         ("file_name", Value.vStr document.file_name),
         ("file_size_mb", Value.vDecimal document.file_size_mb),
         ("id_patrimoine", optRefValue document.id_patrimoine),
         ("id_inspection", optRefValue document.id_inspection),
         ("id_intervention", optRefValue document.id_intervention)]
      if !(user.is_superuser || user.groups.contains "ADMIN"
            || document.uploaded_by == user.userId) then
        match document.id_patrimoine with
        | none => (st, DeleteOutcome.attributeError)
        | some pid => (st, DeleteOutcome.redirectPatrimoineDetail pid)
      else
        let st' : DocState :=
          { st with
              documents := st.documents.filter
                (fun d => !(d.id_document == id_document)),
              audit := _log_audit st.audit user.userId "DELETE" "DOCUMENT"
                id_document (some old_data) none st.now }
        match document.id_patrimoine with
        | some pid => (st', DeleteOutcome.redirectPatrimoineDetail pid)
        | none => (st', DeleteOutcome.redirectDocumentList)

/-- The query-string filters of the `audit_log` view; an empty string /
`none` means the filter is absent. Timestamps are compared directly on
the `created_at` clock value (the `__date` cast is monotone in it). -/
structure AuditFilters where
  action_filter : String
  entity_filter : String
  actor_filter : Option Nat
  date_from : Option Nat
  date_to : Option Nat
deriving DecidableEq

/-- The conjunction of the `.filter(...)` calls of `audit_log`. -/
def matchesAuditFilters (f : AuditFilters) (e : AuditLogEntry) : Bool :=
  (f.action_filter == "" || e.action == f.action_filter)
    && (f.entity_filter == "" || e.entity_type == f.entity_filter)
    && (match f.actor_filter with
        | none => true
        | some a => e.actor == a)
    && (match f.date_from with
        | none => true
        | some d => decide (d ≤ e.created_at))
    && (match f.date_to with
        | none => true
        | some d => decide (e.created_at ≤ d))

/-- `order_by("-created_at")`: newest first. -/
def auditDescOrder (a b : AuditLogEntry) : Prop :=
  b.created_at ≤ a.created_at

instance : DecidableRel auditDescOrder :=
  fun a b => Nat.decLe b.created_at a.created_at

instance : IsTotal AuditLogEntry auditDescOrder :=
  ⟨fun a b => Nat.le_total b.created_at a.created_at⟩

instance : IsTrans AuditLogEntry auditDescOrder :=
  ⟨fun _ _ _ hab hbc => Nat.le_trans hbc hab⟩

/-- `audit_log(request)` from `patrimoine/views.py`: superuser only
(everyone else is redirected to the dashboard, modelled as `none`);
otherwise all `AuditLog` rows ordered by `created_at` descending, the
five optional filters applied, and the result truncated by `logs[:300]`. -/
def audit_log (user : User) (f : AuditFilters)
    (entries : List AuditLogEntry) : Option (List AuditLogEntry) :=
  if !user.is_superuser then none
  else
    some ((((entries.insertionSort auditDescOrder)).filter
      (matchesAuditFilters f)).take 300)

/-- One workflow operation of §4.3: Submit, Approve or Reject, with the
caller and the request data. -/
inductive WorkflowOp where
  | submit : User → Nat → Bool → ProposedData → WorkflowOp
  | approve : User → Nat → String → WorkflowOp
  | reject : User → Nat → String → WorkflowOp
deriving DecidableEq

/-- The state reached by one workflow operation (the view's redirect
outcome is dropped). -/
def applyOp (st : WorkflowState) : WorkflowOp → WorkflowState
  | WorkflowOp.submit u i p pd => (inspection_request_edit st u i p pd).1
  | WorkflowOp.approve u r n => (inspection_request_approve st u r n).1
  | WorkflowOp.reject u r n => (inspection_request_reject st u r n).1

/-- Run a sequence of workflow operations. -/
def runOps (st : WorkflowState) (ops : List WorkflowOp) : WorkflowState :=
  ops.foldl applyOp st

/-- Spec §3/§8 invariant: each inspection that is targeted by some
request has at most one PENDING request. -/
def AtMostOnePending (st : WorkflowState) : Prop :=
  ∀ r ∈ st.requests,
    st.requests.countP (isPendingFor r.id_inspection) ≤ 1

/-- Claimed postcondition of a successful Approve (§4.3 transition 2,
§8 property 3): the target inspection holds exactly the proposed
date/etat/observations with a refreshed update timestamp, the request is
APPROVED with reviewer/review-timestamp/note recorded, and exactly two
new audit rows were appended — `REQUEST_APPROVE` for the request and
`UPDATE` for the inspection with its before/after field values. -/
def ApprovePost (st : WorkflowState) (user : User) (id_request : Nat)
    (note : String) (mod_request : InspectionModificationRequest)
    (inspection : Inspection) (st' : WorkflowState) : Prop :=
  (st'.inspections.find?
      (fun i => i.id_inspection == mod_request.id_inspection)).map
      (fun i => (i.date_inspection, i.etat, i.observations, i.updated_at))
    = some (mod_request.proposed_data.date_inspection,
            mod_request.proposed_data.etat,
            mod_request.proposed_data.observations, st.now)
  ∧ st'.requests.find? (fun r => r.id_request == id_request)
      = some (reviewRequest mod_request RequestStatus.APPROVED
          user.userId st.now note)
  ∧ st'.audit = st.audit ++
      [{ actor := user.userId, action := "REQUEST_APPROVE",
         entity_type := "INSPECTION_REQUEST",
         entity_id := mod_request.id_request,
         old_data := none,
         new_data := some [("status", Value.vStr "APPROVED"),
                           ("admin_note", Value.vStr note)],
         created_at := st.now },
       { actor := user.userId, action := "UPDATE",
         entity_type := "INSPECTION",
         entity_id := mod_request.id_inspection,
         old_data := some
           [("date_inspection", Value.vStr inspection.date_inspection),
            ("etat", Value.vStr inspection.etat),
            ("observations", Value.vStr inspection.observations)],
         new_data := some
           [("date_inspection",
             Value.vStr mod_request.proposed_data.date_inspection),
            ("etat", Value.vStr mod_request.proposed_data.etat),
            ("observations",
             Value.vStr mod_request.proposed_data.observations)],
         created_at := st.now }]

/-- Claimed postcondition of a successful Reject (§4.3 transition 3,
§8 property 4): the inspection table is unchanged, the request is
REJECTED with reviewer/review-timestamp/note recorded, and exactly one
new audit row was appended. -/
def RejectPost (st : WorkflowState) (user : User) (id_request : Nat)
    (note : String) (mod_request : InspectionModificationRequest)
    (st' : WorkflowState) : Prop :=
  st'.inspections = st.inspections
  ∧ st'.requests.find? (fun r => r.id_request == id_request)
      = some (reviewRequest mod_request RequestStatus.REJECTED
          user.userId st.now note)
  ∧ st'.audit = st.audit ++
      [{ actor := user.userId, action := "REQUEST_REJECT",
         entity_type := "INSPECTION_REQUEST",
         entity_id := mod_request.id_request,
         old_data := none,
         new_data := some [("status", Value.vStr "REJECTED"),
                           ("admin_note", Value.vStr note)],
         created_at := st.now }]

/-- Claimed behaviour of the audit-data normalization (§4.4): the stored
mapping is the input mapping with every value normalized, where
normalization sends dates and datetimes to their ISO-8601 string, sends
decimals to a plain numeric value, leaves every other value unchanged —
and the audit recorder stores exactly these normalized snapshots. -/
def NormalizeSpec (data : AuditData) : Prop :=
  _normalize_audit_data (some data)
      = some (data.map (fun p => (p.1, normalizeValue p.2)))
  ∧ (∀ y m d, normalizeValue (Value.vDate y m d)
      = Value.vStr (dateIso y m d))
  ∧ (∀ y mo d h mi s, normalizeValue (Value.vDatetime y mo d h mi s)
      = Value.vStr (datetimeIso y mo d h mi s))
  ∧ (∀ q, normalizeValue (Value.vDecimal q) = Value.vFloat q)
  ∧ (∀ v : Value, (∀ y m d, v ≠ Value.vDate y m d) →
      (∀ y mo d h mi s, v ≠ Value.vDatetime y mo d h mi s) →
      (∀ q, v ≠ Value.vDecimal q) → normalizeValue v = v)
  ∧ (∀ (audit : List AuditLogEntry) (actor : Nat)
      (action entity_type : String) (entity_id : Nat)
      (od nd : Option AuditData) (now : Nat),
      _log_audit audit actor action entity_type entity_id od nd now
        = audit ++ [{ actor := actor, action := action,
                      entity_type := entity_type, entity_id := entity_id,
                      old_data := _normalize_audit_data od,
                      new_data := _normalize_audit_data nd,
                      created_at := now }])

/- Concrete fixtures used by the closed witness / counterexample
theorems. -/

/-- An inspector account (owner of `insp1`). -/
def inspector1 : User := ⟨10, false, ["INSPECTEUR"]⟩

/-- A second inspector, not the owner of `insp1`. -/
def inspector2 : User := ⟨11, false, ["INSPECTEUR"]⟩

/-- An ADMIN-group account. -/
def admin1 : User := ⟨20, false, ["ADMIN"]⟩

/-- An authenticated account with no groups and no flags. -/
def plainUser : User := ⟨30, false, []⟩

/-- A superuser account. -/
def superUser : User := ⟨40, true, []⟩

/-- Inspection #1, owned by `inspector1`, currently in state BON. -/
def insp1 : Inspection :=
  { id_inspection := 1, id_patrimoine := 7, id_inspecteur := 10,
    date_inspection := "2024-01-10", etat := "BON", observations := "ras",
    archived_at := none, created_at := 50, updated_at := 50 }

/-- A proposed modification: new date, state DEGRADE, new observations. -/
def pd1 : ProposedData :=
  { date_inspection := "2024-02-01", etat := "DEGRADE",
    observations := "crack found" }

/-- A PENDING modification request by `inspector1` against `insp1`. -/
def req1 : InspectionModificationRequest :=
  { id_request := 1, id_inspection := 1, requested_by := 10,
    requested_at := 60, status := RequestStatus.PENDING,
    reviewed_by := none, reviewed_at := none, admin_note := none,
    proposed_data := pd1 }

/-- An already-APPROVED request against `insp1`. -/
def req2 : InspectionModificationRequest :=
  { id_request := 2, id_inspection := 1, requested_by := 10,
    requested_at := 55, status := RequestStatus.APPROVED,
    reviewed_by := some 20, reviewed_at := some 58,
    admin_note := some "ok", proposed_data := pd1 }

/-- State with `insp1` and no requests. -/
def st0 : WorkflowState :=
  { inspections := [insp1], requests := [], audit := [],
    next_request_id := 1, now := 100 }

/-- State with `insp1` and the PENDING request `req1`. -/
def st1 : WorkflowState :=
  { inspections := [insp1], requests := [req1], audit := [],
    next_request_id := 2, now := 100 }

/-- State with `insp1` and only the already-reviewed request `req2`. -/
def st2 : WorkflowState :=
  { inspections := [insp1], requests := [req2], audit := [],
    next_request_id := 3, now := 100 }

/-- A document with no linked patrimoine, uploaded by `inspector1`. -/
def orphanDoc : Document :=
  { id_document := 5, type_document := "PDF", file_name := "plan.pdf",
    file_size_mb := 2, uploaded_by := 10, id_patrimoine := none,
    id_inspection := none, id_intervention := none }

/-- Document store holding only `orphanDoc`. -/
def docSt : DocState := { documents := [orphanDoc], audit := [], now := 100 }

/-- Two audit rows out of timestamp order, for the audit-view witness. -/
def auditRow1 : AuditLogEntry :=
  { actor := 20, action := "UPDATE", entity_type := "INSPECTION",
    entity_id := 1, old_data := none, new_data := none, created_at := 5 }

/-- A later audit row (see `auditRow1`). -/
def auditRow2 : AuditLogEntry :=
  { actor := 20, action := "DELETE", entity_type := "DOCUMENT",
    entity_id := 5, old_data := none, new_data := none, created_at := 9 }

/-- An empty filter set for the audit-log view. -/
def noFilters : AuditFilters :=
  { action_filter := "", entity_filter := "", actor_filter := none,
    date_from := none, date_to := none }

/-! ## Helper lemmas -/

theorem find?_map_if_eq {α : Type} (p : α → Bool) (g : α → α)
    (l : List α) (a : α) (h : l.find? p = some a) (hg : p (g a) = true) :
    (l.map (fun x => if p x then g x else x)).find? p = some (g a) := by
  induction l with
  | nil => simp at h
  | cons x xs ih =>
      by_cases hx : p x = true
      · have hax : a = x := by
          rw [List.find?_cons_of_pos _ hx] at h
          exact (Option.some.injEq _ _ ▸ h).symm
        subst hax
        simp only [List.map_cons, if_pos hx]
        exact List.find?_cons_of_pos _ hg
      · have hx' : p x = false := by simpa using hx
        have h' : xs.find? p = some a := by
          rwa [List.find?_cons_of_neg _ (by simp [hx'])] at h
        simp only [List.map_cons, if_neg (by simp [hx'] : ¬ p x = true)]
        rw [List.find?_cons_of_neg _ (by simp [hx'])]
        exact ih h'

theorem countP_map_update_le {α : Type} (p : α → Bool) (f : α → α)
    (l : List α) (h : ∀ x ∈ l, p (f x) = true → p x = true) :
    (l.map f).countP p ≤ l.countP p := by
  induction l with
  | nil => simp
  | cons x xs ih =>
      simp only [List.map_cons, List.countP_cons]
      have hx := h x (List.mem_cons_self x xs)
      have ih' := ih (fun y hy hp => h y (List.mem_cons_of_mem x hy) hp)
      by_cases hfx : p (f x) = true
      · have hpx := hx hfx
        simp only [hfx, hpx, if_true]
        omega
      · have hfx' : p (f x) = false := by simpa using hfx
        simp only [hfx', Bool.false_eq_true, if_false]
        by_cases hpx : p x = true
        · simp only [hpx, if_true]
          omega
        · have hpx' : p x = false := by simpa using hpx
          simp only [hpx', Bool.false_eq_true, if_false]
          omega

/-! ## Claim theorems -/

/-- C6: role resolution is a function of the superuser flag and group
memberships returning exactly one role with precedence
SUPERADMIN > ADMIN > INSPECTEUR > PUBLIC — a superuser resolves to
superadmin regardless of groups, otherwise ADMIN membership wins over
INSPECTEUR, INSPECTEUR membership wins over public — and the dashboard
router redirects according to exactly that resolved role. -/
theorem C6_role_resolution_precedence (u : User) :
    (u.is_superuser = true → _user_role u = "superadmin")
    ∧ (u.is_superuser = false → u.groups.contains "ADMIN" = true →
        _user_role u = "admin")
    ∧ (u.is_superuser = false → u.groups.contains "ADMIN" = false →
        u.groups.contains "INSPECTEUR" = true →
        _user_role u = "inspecteur")
    ∧ (u.is_superuser = false → u.groups.contains "ADMIN" = false →
        u.groups.contains "INSPECTEUR" = false → _user_role u = "public")
    ∧ dashboard_router_view u = spec_dashboard_route_for (_user_role u) := by
  refine ⟨fun h => ?_, fun h1 h2 => ?_, fun h1 h2 h3 => ?_,
          fun h1 h2 h3 => ?_, rfl⟩
  · simp [_user_role, h]
  · have h2' : "ADMIN" ∈ u.groups := by simpa using h2
    simp [_user_role, h1, h2']
  · have h2' : "ADMIN" ∉ u.groups := by simpa using h2
    have h3' : "INSPECTEUR" ∈ u.groups := by simpa using h3
    simp [_user_role, h1, h2', h3']
  · have h2' : "ADMIN" ∉ u.groups := by simpa using h2
    have h3' : "INSPECTEUR" ∉ u.groups := by simpa using h3
    simp [_user_role, h1, h2', h3']

/-- Witness for C6: a superuser who is also in both groups resolves to
superadmin; a non-superuser in both ADMIN and INSPECTEUR resolves to
admin. -/
theorem C6_role_resolution_precedence_witness :
    _user_role ⟨1, true, ["ADMIN", "INSPECTEUR"]⟩ = "superadmin"
    ∧ _user_role ⟨2, false, ["ADMIN", "INSPECTEUR"]⟩ = "admin" :=
  ⟨(C6_role_resolution_precedence ⟨1, true, ["ADMIN", "INSPECTEUR"]⟩).1 rfl,
   (C6_role_resolution_precedence ⟨2, false, ["ADMIN", "INSPECTEUR"]⟩).2.1
     rfl (by decide)⟩

/-- C9: for every nonempty mapping passed to the audit recorder, every
date/datetime value is stored as its ISO-8601 string, every decimal as a
plain numeric value, and all other values unchanged; the recorder stores
exactly these normalized snapshots. -/
theorem C9_audit_data_normalization (data : AuditData) (h : data ≠ []) :
    NormalizeSpec data := by
  have hne : data.isEmpty = false := by
    cases data with
    | nil => exact absurd rfl h
    | cons x xs => rfl
  refine ⟨?_, fun y m d => rfl, fun y mo d hh mi s => rfl, fun q => rfl,
          ?_, fun audit actor action et eid od nd now => rfl⟩
  · simp [_normalize_audit_data, hne]
  · intro v hd hdt hq
    cases v with
    | vDate y m d => exact absurd rfl (hd y m d)
    | vDatetime y mo d hh mi s => exact absurd rfl (hdt y mo d hh mi s)
    | vDecimal q => exact absurd rfl (hq q)
    | vNone => rfl
    | vBool b => rfl
    | vInt n => rfl
    | vFloat q => rfl
    | vStr s => rfl

/-- Witness for C9 at a one-entry mapping holding a date value. -/
theorem C9_audit_data_normalization_witness :
    NormalizeSpec [("date_inspection", Value.vDate 2024 2 1)] :=
  C9_audit_data_normalization _ (by decide)

/-- C7 (code bug): Submit of a modification request is a state-changing
operation, yet `inspection_request_edit` creates the request without
writing any AuditLog entry — the audit table is exactly as before. -/
theorem C7_submit_writes_no_audit_entry :
    (inspection_request_edit st0 inspector1 1 true pd1).1.requests
      = [newRequestRow st0 inspector1 insp1 pd1]
    ∧ (inspection_request_edit st0 inspector1 1 true pd1).1.audit
      = st0.audit := by
  exact ⟨rfl, rfl⟩

/-- C8 (code bug): an unauthorized attempt to delete a document that is
linked to no patrimoine does not complete as a redirect: the refusal
branch dereferences `document.id_patrimoine` without a `None` guard and
raises `AttributeError`. -/
theorem C8_unauthorized_delete_of_orphan_document_crashes :
    document_delete docSt plainUser 5 = (docSt, DeleteOutcome.attributeError) :=
  rfl

/-- C3 (code bug): the approve path is not atomic. With a failure at the
`mod_request.save()` step, the raw-SQL inspection update has already
been committed: the inspection carries the proposed etat while the
request is still PENDING and no audit entry exists. -/
theorem C3_failed_approve_leaves_partial_state :
    ((inspection_request_approve_with_failure st1 admin1 1 "ok"
        ApproveFailPoint.atRequestSave).1.inspections.map Inspection.etat
      = ["DEGRADE"])
    ∧ ((inspection_request_approve_with_failure st1 admin1 1 "ok"
        ApproveFailPoint.atRequestSave).1.requests.map
        InspectionModificationRequest.status = [RequestStatus.PENDING])
    ∧ (inspection_request_approve_with_failure st1 admin1 1 "ok"
        ApproveFailPoint.atRequestSave).1.audit = [] := by
  exact ⟨rfl, rfl, rfl⟩

/-- C1: approving a PENDING request as an admin applies exactly the
proposed date/etat/observations to the target inspection with a
refreshed update timestamp, marks the request APPROVED with reviewer
identity, review timestamp and note, and appends exactly two audit rows:
a REQUEST_APPROVE entry for the request and an UPDATE entry for the
inspection with its before/after field values. -/
theorem C1_approve_applies_and_audits (st : WorkflowState) (user : User)
    (id_request : Nat) (note : String)
    (mod_request : InspectionModificationRequest) (inspection : Inspection)
    (hadmin : _is_admin user = true)
    (hreq : st.requests.find? (fun r => r.id_request == id_request)
      = some mod_request)
    (hpend : mod_request.status = RequestStatus.PENDING)
    (hinsp : st.inspections.find?
      (fun i => i.id_inspection == mod_request.id_inspection)
      = some inspection) :
    ApprovePost st user id_request note mod_request inspection
      (inspection_request_approve st user id_request note).1 := by
  have hpi := List.find?_some hinsp
  have hid : inspection.id_inspection = mod_request.id_inspection := by
    simpa using hpi
  have hpr := List.find?_some hreq
  unfold inspection_request_approve
  rw [hadmin, hreq]
  simp only [Bool.not_true, Bool.false_eq_true, if_false, hpend, ne_eq,
    not_true_eq_false, hinsp]
  refine ⟨?_, ?_, ?_⟩
  · rw [hid]
    rw [find?_map_if_eq
      (fun i => i.id_inspection == mod_request.id_inspection)
      (fun i => applyProposed i mod_request.proposed_data st.now)
      st.inspections inspection hinsp (by simpa [applyProposed] using hpi)]
    simp [applyProposed]
  · exact find?_map_if_eq (fun r => r.id_request == id_request)
      (fun _ => reviewRequest mod_request RequestStatus.APPROVED
        user.userId st.now note)
      st.requests mod_request hreq (by simpa [reviewRequest] using hpr)
  · simp [_log_audit, _normalize_audit_data, normalizeValue, hid]

/-- Witness for C1: the admin approves the PENDING request `req1` in
state `st1`. -/
theorem C1_approve_applies_and_audits_witness :
    ApprovePost st1 admin1 1 "ok" req1 insp1
      (inspection_request_approve st1 admin1 1 "ok").1 :=
  C1_approve_applies_and_audits st1 admin1 1 "ok" req1 insp1
    (by decide) (by decide) rfl (by decide)

/-- C5: rejecting a PENDING request as an admin leaves the inspection
table unchanged, marks the request REJECTED with reviewer identity,
review timestamp and note, and appends exactly one REQUEST_REJECT audit
row. -/
theorem C5_reject_freezes_request_and_audits (st : WorkflowState)
    (user : User) (id_request : Nat) (note : String)
    (mod_request : InspectionModificationRequest)
    (hadmin : _is_admin user = true)
    (hreq : st.requests.find? (fun r => r.id_request == id_request)
      = some mod_request)
    (hpend : mod_request.status = RequestStatus.PENDING) :
    RejectPost st user id_request note mod_request
      (inspection_request_reject st user id_request note).1 := by
  have hpr := List.find?_some hreq
  unfold inspection_request_reject
  rw [hadmin, hreq]
  simp only [Bool.not_true, Bool.false_eq_true, if_false, hpend, ne_eq,
    not_true_eq_false]
  refine ⟨rfl, ?_, ?_⟩
  · exact find?_map_if_eq (fun r => r.id_request == id_request)
      (fun _ => reviewRequest mod_request RequestStatus.REJECTED
        user.userId st.now note)
      st.requests mod_request hreq (by simpa [reviewRequest] using hpr)
  · simp [_log_audit, _normalize_audit_data, normalizeValue]

/-- Witness for C5: the admin rejects the PENDING request `req1` in
state `st1`. -/
theorem C5_reject_freezes_request_and_audits_witness :
    RejectPost st1 admin1 1 "non" req1
      (inspection_request_reject st1 admin1 1 "non").1 :=
  C5_reject_freezes_request_and_audits st1 admin1 1 "non" req1
    (by decide) (by decide) rfl

/-- C4: precondition-violating workflow calls are no-ops — a Submit by a
caller who is not the inspection's inspector, or when a PENDING request
already exists, changes nothing and redirects to the inspection's detail
view; an Approve or Reject of a request that is no longer PENDING
changes nothing (in particular writes no audit entry) and redirects to
the inspection list. -/
theorem C4_precondition_violations_are_noops :
    (∀ (st : WorkflowState) (u : User) (i : Nat) (p : Bool)
        (pd : ProposedData) (insp : Inspection),
      st.inspections.find? (fun x => x.id_inspection == i) = some insp →
      insp.id_inspecteur ≠ u.userId →
      inspection_request_edit st u i p pd
        = (st, ViewOutcome.redirectInspectionDetail i))
    ∧ (∀ (st : WorkflowState) (u : User) (i : Nat) (p : Bool)
        (pd : ProposedData) (insp : Inspection),
      st.inspections.find? (fun x => x.id_inspection == i) = some insp →
      st.requests.any (isPendingFor insp.id_inspection) = true →
      inspection_request_edit st u i p pd
        = (st, ViewOutcome.redirectInspectionDetail i))
    ∧ (∀ (st : WorkflowState) (u : User) (idr : Nat) (note : String)
        (mr : InspectionModificationRequest),
      st.requests.find? (fun r => r.id_request == idr) = some mr →
      mr.status ≠ RequestStatus.PENDING →
      inspection_request_approve st u idr note
        = (st, ViewOutcome.redirectInspectionList))
    ∧ (∀ (st : WorkflowState) (u : User) (idr : Nat) (note : String)
        (mr : InspectionModificationRequest),
      st.requests.find? (fun r => r.id_request == idr) = some mr →
      mr.status ≠ RequestStatus.PENDING →
      inspection_request_reject st u idr note
        = (st, ViewOutcome.redirectInspectionList)) := by
  refine ⟨?_, ?_, ?_, ?_⟩
  · intro st u i p pd insp hf hown
    unfold inspection_request_edit
    rw [hf]
    simp [hown]
  · intro st u i p pd insp hf hany
    unfold inspection_request_edit
    rw [hf]
    by_cases hown : insp.id_inspecteur = u.userId
    · simp [hown, hany]
    · simp [hown]
  · intro st u idr note mr hf hst
    unfold inspection_request_approve
    cases hadm : _is_admin u with
    | false => simp [hadm]
    | true => rw [hf]; simp [hadm, hst]
  · intro st u idr note mr hf hst
    unfold inspection_request_reject
    cases hadm : _is_admin u with
    | false => simp [hadm]
    | true => rw [hf]; simp [hadm, hst]

/-- Witness for C4: in state `st1` (PENDING request present) a Submit by
the non-owner `inspector2` and a Submit by the owner are both pure
redirects; in state `st2` (request already APPROVED) Approve and Reject
are pure redirects. -/
theorem C4_precondition_violations_are_noops_witness :
    inspection_request_edit st1 inspector2 1 true pd1
      = (st1, ViewOutcome.redirectInspectionDetail 1)
    ∧ inspection_request_edit st1 inspector1 1 true pd1
      = (st1, ViewOutcome.redirectInspectionDetail 1)
    ∧ inspection_request_approve st2 admin1 2 "x"
      = (st2, ViewOutcome.redirectInspectionList)
    ∧ inspection_request_reject st2 admin1 2 "x"
      = (st2, ViewOutcome.redirectInspectionList) :=
  ⟨C4_precondition_violations_are_noops.1 st1 inspector2 1 true pd1 insp1
     (by decide) (by decide),
   C4_precondition_violations_are_noops.2.1 st1 inspector1 1 true pd1 insp1
     (by decide) (by decide),
   C4_precondition_violations_are_noops.2.2.1 st2 admin1 2 "x" req2
     (by decide) (by decide),
   C4_precondition_violations_are_noops.2.2.2 st2 admin1 2 "x" req2
     (by decide) (by decide)⟩

theorem inspection_request_edit_requests_characterization
    (st : WorkflowState) (u : User) (i : Nat) (p : Bool)
    (pd : ProposedData) :
    (inspection_request_edit st u i p pd).1.requests = st.requests
    ∨ ∃ insp, st.inspections.find? (fun x => x.id_inspection == i) = some insp
        ∧ st.requests.any (isPendingFor insp.id_inspection) = false
        ∧ (inspection_request_edit st u i p pd).1.requests
            = st.requests ++ [newRequestRow st u insp pd] := by
  unfold inspection_request_edit
  cases hf : st.inspections.find? (fun x => x.id_inspection == i) with
  | none => left; rfl
  | some insp =>
      by_cases hown : insp.id_inspecteur = u.userId
      · by_cases hany : st.requests.any (isPendingFor insp.id_inspection) = true
        · left; simp [hown, hany]
        · have hany' : st.requests.any (isPendingFor insp.id_inspection) = false := by
            simpa using hany
          cases hp : p with
          | false => left; simp [hown, hany']
          | true =>
              right
              exact ⟨insp, rfl, hany', by simp [hown, hany']⟩
      · left; simp [hown]

theorem inspection_request_approve_requests_characterization
    (st : WorkflowState) (u : User) (idr : Nat) (note : String) :
    (inspection_request_approve st u idr note).1.requests = st.requests
    ∨ ∃ mr, st.requests.find? (fun r => r.id_request == idr) = some mr
        ∧ (inspection_request_approve st u idr note).1.requests
            = st.requests.map (fun r =>
                if r.id_request == idr then
                  reviewRequest mr RequestStatus.APPROVED u.userId st.now note
                else r) := by
  unfold inspection_request_approve
  cases hadm : _is_admin u with
  | false => left; simp
  | true =>
      simp only [Bool.not_true, Bool.false_eq_true, if_false]
      cases hf : st.requests.find? (fun r => r.id_request == idr) with
      | none => left; rfl
      | some mr =>
          by_cases hst : mr.status = RequestStatus.PENDING
          · cases hi : st.inspections.find?
                (fun x => x.id_inspection == mr.id_inspection) with
            | none => left; simp [hst, hi]
            | some insp =>
                right
                exact ⟨mr, rfl, by simp [hst, hi]⟩
          · left; simp [hst]

theorem inspection_request_reject_requests_characterization
    (st : WorkflowState) (u : User) (idr : Nat) (note : String) :
    (inspection_request_reject st u idr note).1.requests = st.requests
    ∨ ∃ mr, st.requests.find? (fun r => r.id_request == idr) = some mr
        ∧ (inspection_request_reject st u idr note).1.requests
            = st.requests.map (fun r =>
                if r.id_request == idr then
                  reviewRequest mr RequestStatus.REJECTED u.userId st.now note
                else r) := by
  unfold inspection_request_reject
  cases hadm : _is_admin u with
  | false => left; simp
  | true =>
      simp only [Bool.not_true, Bool.false_eq_true, if_false]
      cases hf : st.requests.find? (fun r => r.id_request == idr) with
      | none => left; rfl
      | some mr =>
          by_cases hst : mr.status = RequestStatus.PENDING
          · right
            exact ⟨mr, rfl, by simp [hst]⟩
          · left; simp [hst]

theorem reviewed_map_keeps_AtMostOnePending
    (l : List InspectionModificationRequest) (idr : Nat)
    (mr : InspectionModificationRequest) (s : RequestStatus)
    (hs : (s == RequestStatus.PENDING) = false) (rev now : Nat)
    (note : String)
    (h : ∀ r ∈ l, l.countP (isPendingFor r.id_inspection) ≤ 1)
    (hmr : mr ∈ l) :
    ∀ r ∈ l.map (fun x =>
        if x.id_request == idr then reviewRequest mr s rev now note else x),
      (l.map (fun x =>
        if x.id_request == idr then reviewRequest mr s rev now note
        else x)).countP (isPendingFor r.id_inspection) ≤ 1 := by
  intro r hr
  have hle : ∀ j, (l.map (fun x =>
      if x.id_request == idr then reviewRequest mr s rev now note
      else x)).countP (isPendingFor j) ≤ l.countP (isPendingFor j) := by
    intro j
    apply countP_map_update_le
    intro y _ hp
    by_cases hyid : (y.id_request == idr) = true
    · exfalso
      rw [if_pos hyid] at hp
      simp [isPendingFor, reviewRequest, hs] at hp
    · rwa [if_neg hyid] at hp
  rcases List.mem_map.mp hr with ⟨x, hx, hfx⟩
  have hrid : ∃ x0 ∈ l, r.id_inspection = x0.id_inspection := by
    by_cases hxid : (x.id_request == idr) = true
    · refine ⟨mr, hmr, ?_⟩
      rw [← hfx, if_pos hxid]
      rfl
    · refine ⟨x, hx, ?_⟩
      rw [← hfx, if_neg hxid]
  rcases hrid with ⟨x0, hx0, hrx0⟩
  calc (l.map (fun x =>
          if x.id_request == idr then reviewRequest mr s rev now note
          else x)).countP (isPendingFor r.id_inspection)
      ≤ l.countP (isPendingFor r.id_inspection) := hle _
    _ = l.countP (isPendingFor x0.id_inspection) := by rw [hrx0]
    _ ≤ 1 := h x0 hx0

theorem applyOp_preserves_AtMostOnePending (st : WorkflowState)
    (op : WorkflowOp) (h : AtMostOnePending st) :
    AtMostOnePending (applyOp st op) := by
  cases op with
  | submit u i p pd =>
      rcases inspection_request_edit_requests_characterization st u i p pd
        with heq | ⟨insp, _, hany, heq⟩
      · unfold AtMostOnePending at h ⊢
        simp only [applyOp]
        rw [heq]
        exact h
      · unfold AtMostOnePending at h ⊢
        simp only [applyOp]
        rw [heq]
        intro r hr
        have hzero : st.requests.countP (isPendingFor insp.id_inspection) = 0 := by
          rw [List.countP_eq_zero]
          intro a ha
          have := List.any_eq_false.mp hany
          simpa using this a ha
        have hcount : ∀ j,
            (st.requests ++ [newRequestRow st u insp pd]).countP
              (isPendingFor j)
              = st.requests.countP (isPendingFor j)
                + (if isPendingFor j (newRequestRow st u insp pd) then 1
                   else 0) := by
          intro j
          rw [List.countP_append]
          simp [List.countP_cons]
        rcases List.mem_append.mp hr with hrold | hrnew
        · by_cases hjeq : r.id_inspection = insp.id_inspection
          · rw [hcount, hjeq, hzero]
            split <;> omega
          · have hnew_false :
                isPendingFor r.id_inspection (newRequestRow st u insp pd)
                  = false := by
              simp only [isPendingFor, newRequestRow, Bool.and_eq_false_iff]
              left
              simp [beq_iff_eq]
              exact fun hh => hjeq hh.symm
            rw [hcount, hnew_false]
            simpa using h r hrold
        · have hrn : r = newRequestRow st u insp pd := by simpa using hrnew
          subst hrn
          rw [hcount]
          have hni : (newRequestRow st u insp pd).id_inspection
              = insp.id_inspection := rfl
          rw [hni, hzero]
          split <;> omega
  | approve u idr note =>
      rcases inspection_request_approve_requests_characterization st u idr
        note with heq | ⟨mr, hf, heq⟩
      · unfold AtMostOnePending at h ⊢
        simp only [applyOp]
        rw [heq]
        exact h
      · unfold AtMostOnePending at h ⊢
        simp only [applyOp]
        rw [heq]
        exact reviewed_map_keeps_AtMostOnePending st.requests idr mr
          RequestStatus.APPROVED rfl u.userId st.now note h
          (List.mem_of_find?_eq_some hf)
  | reject u idr note =>
      rcases inspection_request_reject_requests_characterization st u idr
        note with heq | ⟨mr, hf, heq⟩
      · unfold AtMostOnePending at h ⊢
        simp only [applyOp]
        rw [heq]
        exact h
      · unfold AtMostOnePending at h ⊢
        simp only [applyOp]
        rw [heq]
        exact reviewed_map_keeps_AtMostOnePending st.requests idr mr
          RequestStatus.REJECTED rfl u.userId st.now note h
          (List.mem_of_find?_eq_some hf)

/-- C2: in every state reachable from a state satisfying the invariant
via Submit/Approve/Reject, each inspection has at most one PENDING
modification request — Submit refuses to create a request while a
PENDING one exists for the same inspection, and Approve/Reject only move
a request out of PENDING. -/
theorem C2_at_most_one_pending_invariant (init : WorkflowState)
    (ops : List WorkflowOp) (h : AtMostOnePending init) :
    AtMostOnePending (runOps init ops) := by
  induction ops generalizing init with
  | nil => simpa [runOps] using h
  | cons op rest ih =>
      have h1 := applyOp_preserves_AtMostOnePending init op h
      have h2 := ih (applyOp init op) h1
      simpa [runOps, List.foldl_cons] using h2

/-- Witness for C2: starting from the empty-request state, a double
Submit followed by an Approve keeps the invariant. -/
theorem C2_at_most_one_pending_invariant_witness :
    AtMostOnePending (runOps st0
      [WorkflowOp.submit inspector1 1 true pd1,
       WorkflowOp.submit inspector1 1 true pd1,
       WorkflowOp.approve admin1 1 "ok"]) :=
  C2_at_most_one_pending_invariant st0
    [WorkflowOp.submit inspector1 1 true pd1,
     WorkflowOp.submit inspector1 1 true pd1,
     WorkflowOp.approve admin1 1 "ok"]
    (by intro r hr; simp [st0] at hr)

/-- C10: for a superuser caller the audit-log view returns the audit
rows ordered by creation timestamp descending, truncated to at most 300
entries after the filters are applied. -/
theorem C10_audit_log_sorted_and_truncated (user : User)
    (f : AuditFilters) (entries : List AuditLogEntry)
    (hsuper : user.is_superuser = true) :
    ∃ logs, audit_log user f entries = some logs
      ∧ List.Sorted auditDescOrder logs
      ∧ logs.length ≤ 300
      ∧ logs = ((entries.insertionSort auditDescOrder).filter
          (matchesAuditFilters f)).take 300 := by
  refine ⟨((entries.insertionSort auditDescOrder).filter
    (matchesAuditFilters f)).take 300, ?_, ?_, ?_, rfl⟩
  · simp [audit_log, hsuper]
  · have hs : List.Sorted auditDescOrder
        (entries.insertionSort auditDescOrder) :=
      List.sorted_insertionSort auditDescOrder entries
    exact List.Pairwise.sublist (List.take_sublist _ _)
      (List.Pairwise.filter _ hs)
  · exact List.length_take_le _ _

/-- Witness for C10: the superuser views two out-of-order audit rows. -/
theorem C10_audit_log_sorted_and_truncated_witness :
    ∃ logs, audit_log superUser noFilters [auditRow1, auditRow2] = some logs
      ∧ List.Sorted auditDescOrder logs
      ∧ logs.length ≤ 300
      ∧ logs = (([auditRow1, auditRow2].insertionSort
          auditDescOrder).filter (matchesAuditFilters noFilters)).take 300 :=
  C10_audit_log_sorted_and_truncated superUser noFilters
    [auditRow1, auditRow2] rfl

end Patrimoine
